import Mathlib

set_option maxRecDepth 8192

/-!
Verification of the valtro-backend authentication / authorization core.

This file gives a shallow embedding, in Lean 4, of the parts of the Go
code base relevant to the frozen claims: the project / organization
services and handlers, the onboarding transaction, the user service and
the Clerk webhook reconciler, the Clerk JWT middleware and the JWKS
cache, together with theorems settling each claim.

Conventions of the embedding:
* UUIDs are modelled as natural numbers (`uuid.Nil` is `0`); fresh ids
  produced by `uuid.New()` are passed in as explicit parameters.
* The relational store is a list of records; GORM soft deletion is a
  `deleted` flag and every read filters it out, mirroring the repository
  queries.
* `time.Now()` timestamps carry no information used by any claim and are
  omitted from the record types.
* Byte strings from `crypto/rand` are modelled as an explicit entropy
  source `Nat → List Nat` (attempt index ↦ the 32 bytes read).
* Go `error` values are `Except` values; the structured `AppError` of
  `internal/errors` keeps its type tag, message and details.
-/

/-- HTTP response skeleton: status code plus the `message` field of the
response envelope (`SendSuccess` / `SendError` in `utils/response`). -/
structure HttpResponse where
  status : Nat
  message : String
deriving DecidableEq, Repr

/-- Model of a request header or URL parameter that the Go code runs
through `uuid.Parse`: it can be absent (`""`), present but unparseable,
or a valid UUID. -/
inductive HVal (α : Type) where
  | missing : HVal α
  | invalid : HVal α
  | val : α → HVal α
deriving DecidableEq, Repr

/-- Error type tags of `internal/errors.ErrorType`. -/
def errorTypeInternal : String := "INTERNAL_ERROR"

def errorTypeConflict : String := "CONFLICT"

def errorTypeNotFound : String := "NOT_FOUND"

def errorTypeValidation : String := "VALIDATION_ERROR"

/-- Structured application error, mirroring `internal/errors.AppError`
(the `Code` field is constant per constructor and irrelevant here). -/
structure AppErr where
  typ : String
  message : String
  details : String
deriving DecidableEq, Repr

/-- `AppError.Error()`: `"TYPE: message (details)"`, details omitted when
empty. -/
def AppErr.errString (e : AppErr) : String :=
  if e.details == "" then e.typ ++ ": " ++ e.message
  else e.typ ++ ": " ++ e.message ++ " (" ++ e.details ++ ")"

/-- `errors.NewInternalError`. -/
def newInternalError (message details : String) : AppErr :=
  ⟨errorTypeInternal, message, details⟩

/-- `errors.NewConflictError`. -/
def newConflictError (message details : String) : AppErr :=
  ⟨errorTypeConflict, message, details⟩

/-- `errors.NewNotFoundError` (message is `resource ++ " not found"`). -/
def newNotFoundError (resource details : String) : AppErr :=
  ⟨errorTypeNotFound, resource ++ " not found", details⟩

/-- `errors.NewValidationError`. -/
def newValidationError (message : String) : AppErr :=
  ⟨errorTypeValidation, message, ""⟩

/-- Model of Go `strings.TrimSpace`: drop leading and trailing
whitespace characters (executable over the character list, unlike
`String.trim`). -/
def goTrim (s : String) : String :=
  String.mk (((s.data.dropWhile Char.isWhitespace).reverse.dropWhile
    Char.isWhitespace).reverse)

/-- Model of Go `strings.Contains pat ⊆ s` as list-infix on the
characters. -/
def strContains (s pat : String) : Bool :=
  decide (pat.data <:+: s.data)

/-- Model of `strings.Contains(strings.ToLower s, pat)` used by the
webhook handler: lower-case the characters of `s`, then substring
search. -/
def strContainsLower (s pat : String) : Bool :=
  decide (pat.data <:+: s.data.map Char.toLower)

/-! ### API key generation (`internal/constants`, `Service.generateUniqueAPIKey`) -/

/-- `constants.APIKeyMaxAttempts`. -/
def apiKeyMaxAttempts : Nat := 10

/-- `constants.APIKeyByteSize`. -/
def apiKeyByteSize : Nat := 32

/-- `constants.APIKeyPrefix` (the literal `vltro_`). -/
def apiKeyPfx : String := "vltro_"

/-- Error returned when all attempts collide:
`errors.New("failed to generate unique API key after multiple attempts")`. -/
def apiKeyFailMsg : String :=
  "failed to generate unique API key after multiple attempts"

/-- Lower-case hexadecimal digit table used to model
`encoding/hex.EncodeToString` (indices ≥ 16 never occur for byte
nibbles). -/
def hexDigit : Nat → Char
  | 0 => '0' | 1 => '1' | 2 => '2' | 3 => '3' | 4 => '4'
  | 5 => '5' | 6 => '6' | 7 => '7' | 8 => '8' | 9 => '9'
  | 10 => 'a' | 11 => 'b' | 12 => 'c' | 13 => 'd' | 14 => 'e'
  | 15 => 'f' | _ + 16 => '0'

/-- Whether a character is a lower-case hexadecimal digit, i.e. matches
`[0-9a-f]`. -/
def isHexLower (c : Char) : Bool :=
  ('0' ≤ c && c ≤ '9') || ('a' ≤ c && c ≤ 'f')

/-- `hex.EncodeToString`: each byte becomes its two lower-case hex
nibbles, high nibble first. -/
def hexEncodeChars : List Nat → List Char
  | [] => []
  | b :: bs => hexDigit (b / 16 % 16) :: hexDigit (b % 16) :: hexEncodeChars bs

/-- The 32 bytes `crypto/rand.Read` fills for one attempt: the entropy
source output normalised to exactly `apiKeyByteSize` bytes. -/
def randBytes (entropy : Nat → List Nat) (attempt : Nat) : List Nat :=
  (List.range apiKeyByteSize).map (fun j => (entropy attempt).getD j 0 % 256)

/-- The candidate key built in one loop iteration:
`constants.APIKeyPrefix + hex.EncodeToString(bytes)`. -/
def candidateKey (entropy : Nat → List Nat) (attempt : Nat) : String :=
  apiKeyPfx ++ String.mk (hexEncodeChars (randBytes entropy attempt))

/-- The retry loop of `Service.generateUniqueAPIKey`: `keyExists` is the
`projectRepo.APIKeyExists` store round-trip. Returns the result together
with the number of `APIKeyExists` round-trips performed. -/
def genAPIKeyLoop (keyExists : String → Bool) (entropy : Nat → List Nat) :
    Nat → Nat → Except String String × Nat
  | 0, _ => (Except.error apiKeyFailMsg, 0)
  | fuel + 1, attempt =>
    let k := candidateKey entropy attempt
    if keyExists k then
      let r := genAPIKeyLoop keyExists entropy fuel (attempt + 1)
      (r.1, r.2 + 1)
    else
      (Except.ok k, 1)

/-- `Service.generateUniqueAPIKey`, result component. -/
def generateUniqueAPIKey (keyExists : String → Bool) (entropy : Nat → List Nat) :
    Except String String :=
  (genAPIKeyLoop keyExists entropy apiKeyMaxAttempts 0).1

/-- Number of `APIKeyExists` store round-trips the generator performs. -/
def apiKeyRoundTrips (keyExists : String → Bool) (entropy : Nat → List Nat) : Nat :=
  (genAPIKeyLoop keyExists entropy apiKeyMaxAttempts 0).2

theorem hexDigit_isHexLower (n : Nat) : isHexLower (hexDigit n) = true := by
  match n with
  | 0 | 1 | 2 | 3 | 4 | 5 | 6 | 7 | 8 | 9
  | 10 | 11 | 12 | 13 | 14 | 15 => rfl
  | _ + 16 => rfl

theorem hexEncodeChars_length (bs : List Nat) :
    (hexEncodeChars bs).length = 2 * bs.length := by
  induction bs with
  | nil => rfl
  | cons b bs ih => simp [hexEncodeChars, ih]; ring

theorem hexEncodeChars_all (bs : List Nat) :
    (hexEncodeChars bs).all isHexLower = true := by
  induction bs with
  | nil => rfl
  | cons b bs ih => simp_all [hexEncodeChars, hexDigit_isHexLower]

theorem randBytes_length (entropy : Nat → List Nat) (attempt : Nat) :
    (randBytes entropy attempt).length = apiKeyByteSize := by
  simp [randBytes]

theorem candidateKey_format (entropy : Nat → List Nat) (attempt : Nat) :
    ∃ cs, (candidateKey entropy attempt).data = apiKeyPfx.data ++ cs ∧
      cs.length = 64 ∧ cs.all isHexLower = true := by
  refine ⟨hexEncodeChars (randBytes entropy attempt), rfl, ?_, hexEncodeChars_all _⟩
  rw [hexEncodeChars_length, randBytes_length]
  rfl

theorem genAPIKeyLoop_ok_format (keyExists : String → Bool)
    (entropy : Nat → List Nat) (fuel attempt : Nat) (k : String)
    (h : (genAPIKeyLoop keyExists entropy fuel attempt).1 = Except.ok k) :
    ∃ i, k = candidateKey entropy i := by
  induction fuel generalizing attempt with
  | zero => simp [genAPIKeyLoop] at h
  | succ n ih =>
    simp only [genAPIKeyLoop] at h
    by_cases hk : keyExists (candidateKey entropy attempt) = true
    · simp [hk] at h
      exact ih (attempt + 1) h
    · simp [hk] at h
      exact ⟨attempt, h.symm⟩

theorem genAPIKeyLoop_count_le (keyExists : String → Bool)
    (entropy : Nat → List Nat) (fuel attempt : Nat) :
    (genAPIKeyLoop keyExists entropy fuel attempt).2 ≤ fuel := by
  induction fuel generalizing attempt with
  | zero => simp [genAPIKeyLoop]
  | succ n ih =>
    simp only [genAPIKeyLoop]
    by_cases hk : keyExists (candidateKey entropy attempt) = true
    · simp only [hk, if_pos]
      have := ih (attempt + 1)
      omega
    · simp only [hk]
      simp

theorem genAPIKeyLoop_all_collide (keyExists : String → Bool)
    (entropy : Nat → List Nat) (fuel attempt : Nat)
    (h : ∀ i, attempt ≤ i → i < attempt + fuel →
      keyExists (candidateKey entropy i) = true) :
    (genAPIKeyLoop keyExists entropy fuel attempt).1 = Except.error apiKeyFailMsg := by
  induction fuel generalizing attempt with
  | zero => rfl
  | succ n ih =>
    have hhit : keyExists (candidateKey entropy attempt) = true :=
      h attempt (Nat.le_refl _) (by omega)
    simp only [genAPIKeyLoop, hhit, if_pos]
    exact ih (attempt + 1) (fun i h1 h2 => h i (by omega) (by omega))

/-- C4. Every key returned by `generateUniqueAPIKey` is the fixed literal
prefix `vltro_` followed by exactly 64 lower-case hexadecimal characters;
the generator makes at most 10 `APIKeyExists` store round-trips; and when
every candidate of the 10 attempts collides with an existing key it
terminates with the error whose message starts with
"failed to generate unique API key" (the full source literal appends
" after multiple attempts"). -/
theorem apiKey_generation_spec (keyExists : String → Bool) (entropy : Nat → List Nat) :
    (∀ k, generateUniqueAPIKey keyExists entropy = Except.ok k →
      ∃ cs, k.data = apiKeyPfx.data ++ cs ∧ cs.length = 64 ∧ cs.all isHexLower = true) ∧
    apiKeyRoundTrips keyExists entropy ≤ apiKeyMaxAttempts ∧
    ((∀ i, i < apiKeyMaxAttempts → keyExists (candidateKey entropy i) = true) →
      generateUniqueAPIKey keyExists entropy = Except.error apiKeyFailMsg) ∧
    ("failed to generate unique API key".data <+: apiKeyFailMsg.data) := by
  refine ⟨?_, ?_, ?_, ?_⟩
  · intro k hk
    obtain ⟨i, hi⟩ := genAPIKeyLoop_ok_format keyExists entropy apiKeyMaxAttempts 0 k hk
    rw [hi]
    exact candidateKey_format entropy i
  · exact genAPIKeyLoop_count_le keyExists entropy apiKeyMaxAttempts 0
  · intro h
    exact genAPIKeyLoop_all_collide keyExists entropy apiKeyMaxAttempts 0
      (fun i h1 h2 => h i (by omega))
  · decide

/-- Witness for C4 at a concrete input: with a store in which every key
already exists, the generator gives up with the bounded-retry error. -/
theorem apiKey_generation_spec_witness :
    generateUniqueAPIKey (fun _ => true) (fun _ => List.replicate 32 0) =
      Except.error apiKeyFailMsg :=
  (apiKey_generation_spec (fun _ => true) (fun _ => List.replicate 32 0)).2.2.1
    (fun _ _ => rfl)

/-! ### Organization / project data model (`internal/models`, repositories) -/

/-- Row of the `organizations` table (`models.Organization`); `deleted`
is the GORM `DeletedAt` soft-delete marker. -/
structure Organization where
  id : Nat
  name : String
  ownerId : Nat
  deleted : Bool
deriving DecidableEq, Repr

/-- Row of the `projects` table (`models.Project`). -/
structure Project where
  id : Nat
  organizationId : Nat
  name : String
  apiKey : String
  deleted : Bool
deriving DecidableEq, Repr

/-- The relational store visible to the organization and project
repositories. -/
structure Store where
  orgs : List Organization
  projects : List Project
deriving DecidableEq, Repr

/-- `organization.Repository.GetByID`: first live row with the id
(the query filters `deleted_at IS NULL`). -/
def orgGetByID (s : Store) (id : Nat) : Option Organization :=
  s.orgs.find? (fun o => o.id == id && !o.deleted)

/-- `project.Repository.GetByID` (GORM adds the soft-delete filter). -/
def projGetByID (s : Store) (id : Nat) : Option Project :=
  s.projects.find? (fun p => p.id == id && !p.deleted)

/-- `project.Repository.APIKeyExists`. -/
def apiKeyExistsS (s : Store) (k : String) : Bool :=
  s.projects.any (fun p => p.apiKey == k && !p.deleted)

/-- `project.Repository.NameExistsForOrganization`. -/
def projNameExists (s : Store) (name : String) (orgId : Nat) : Bool :=
  s.projects.any (fun p => p.name == name && p.organizationId == orgId && !p.deleted)

/-- `organization.Repository.NameExistsForOwner`. -/
def orgNameExistsForOwner (s : Store) (name : String) (ownerId : Nat) : Bool :=
  s.orgs.any (fun o => o.name == name && o.ownerId == ownerId && !o.deleted)

/-- `project.Repository.Create` (`db.Create` insert). -/
def projInsert (s : Store) (p : Project) : Store :=
  { s with projects := s.projects ++ [p] }

/-- `organization.Repository.Create`. -/
def orgInsert (s : Store) (o : Organization) : Store :=
  { s with orgs := s.orgs ++ [o] }

/-- `project.Repository.Update` (`db.Save` replaces the row with the same
primary key). -/
def projSave (s : Store) (p : Project) : Store :=
  { s with projects := s.projects.map (fun q => if q.id == p.id then p else q) }

/-- `project.Repository.Delete` (GORM soft delete: set `DeletedAt`). -/
def projSoftDelete (s : Store) (id : Nat) : Store :=
  { s with projects :=
      s.projects.map (fun q => if q.id == id then { q with deleted := true } else q) }

/-! ### Project service (`internal/services/project`) -/

/-- `dto.UpdateProjectRequest`. -/
structure UpdateProjectRequest where
  name : Option String
deriving DecidableEq, Repr

/-- `dto.CreateProjectRequest`. -/
structure CreateProjectRequest where
  organizationId : Nat
  name : String
deriving DecidableEq, Repr

/-- `Service.validateCreateProject`; `organizationId = 0` plays the role
of `uuid.Nil`. Returns the error message, or `none` when valid. String
length stands for Go byte length (all inputs of interest are ASCII). -/
def validateCreateProject (req : CreateProjectRequest) : Option String :=
  if req.organizationId == 0 then some "organization ID is required"
  else if goTrim req.name == "" then some "project name is required"
  else if req.name.length < 2 then some "project name must be at least 2 characters"
  else if req.name.length > 255 then some "project name must be less than 255 characters"
  else none

/-- `Service.UpdateProject`. The `organizationID` argument is whatever the
handler passed (for the live handler, the client-supplied
`X-Organization-ID` header value); the only authorization performed is
`project.OrganizationID != organizationID`. The Go literal of the
mismatch error contains an apostrophe and is rendered here without it. -/
def updateProject (s : Store) (id : Nat) (req : UpdateProjectRequest)
    (organizationID : Nat) : Except String (Project × Store) :=
  match projGetByID s id with
  | none => Except.error "Project not found"
  | some project =>
    if project.organizationId != organizationID then
      Except.error "unauthorized: project does not belong to this organization"
    else
      match req.name with
      | some n =>
        let trimmedName := goTrim n
        if trimmedName == "" then Except.error "project name cannot be empty"
        else if projNameExists s trimmedName organizationID && project.name != trimmedName then
          Except.error "project with this name already exists in organization"
        else
          let p := { project with name := trimmedName }
          Except.ok (p, projSave s p)
      | none => Except.ok (project, projSave s project)

/-- `Service.DeleteProject`. -/
def deleteProject (s : Store) (id : Nat) (organizationID : Nat) :
    Except String Store :=
  match projGetByID s id with
  | none => Except.error "Project not found"
  | some project =>
    if project.organizationId != organizationID then
      Except.error "unauthorized: project does not belong to this organization"
    else
      Except.ok (projSoftDelete s id)

/-- `Service.RegenerateAPIKey`. -/
def regenerateAPIKey (s : Store) (id : Nat) (organizationID : Nat)
    (entropy : Nat → List Nat) : Except String (Project × Store) :=
  match projGetByID s id with
  | none => Except.error "Project not found"
  | some project =>
    if project.organizationId != organizationID then
      Except.error "unauthorized: project does not belong to this organization"
    else
      match generateUniqueAPIKey (fun k => apiKeyExistsS s k) entropy with
      | Except.error _ => Except.error "failed to generate new API key"
      | Except.ok apiKey =>
        let p := { project with apiKey := apiKey }
        Except.ok (p, projSave s p)

/-- `Service.CreateProject`; `freshId` models `uuid.New()`. -/
def createProject (s : Store) (req : CreateProjectRequest)
    (entropy : Nat → List Nat) (freshId : Nat) : Except String (Project × Store) :=
  match validateCreateProject req with
  | some msg => Except.error msg
  | none =>
    if projNameExists s req.name req.organizationId then
      Except.error "project with this name already exists in organization"
    else
      match generateUniqueAPIKey (fun k => apiKeyExistsS s k) entropy with
      | Except.error _ => Except.error "failed to generate API key"
      | Except.ok apiKey =>
        let p : Project :=
          { id := freshId, organizationId := req.organizationId,
            name := goTrim req.name, apiKey := apiKey, deleted := false }
        Except.ok (p, projInsert s p)

/-! ### Project handlers (`internal/handlers/project/project.go`) -/

/-- `Handler.GetByID` (GET `/api/v1/projects/id`). The route is wrapped by
`ClerkJWTMiddleware`, which authenticates `userId`; the handler body never
reads it. Any service error is rendered by `response.SendNotFound`. -/
def projectGetByIDHandler (s : Store) (_userId : Nat) (idParam : HVal Nat) :
    HttpResponse :=
  match idParam with
  | HVal.missing => ⟨400, "Validation Error"⟩
  | HVal.invalid => ⟨400, "Validation Error"⟩
  | HVal.val projectID =>
    match projGetByID s projectID with
    | none => ⟨404, "Project not found"⟩
    | some _ => ⟨200, "Project retrieved successfully"⟩

/-- `Handler.Update` (PUT `/api/v1/projects/id`). The organization id used
for the authorization comparison is read from the client-supplied
`X-Organization-ID` header; the authenticated `userId` installed by the
JWT middleware is never consulted. -/
def projectUpdateHandler (s : Store) (_userId : Nat) (orgHeader : HVal Nat)
    (idParam : HVal Nat) (body : Option UpdateProjectRequest) :
    HttpResponse × Store :=
  match orgHeader with
  | HVal.missing => (⟨401, "Organization ID required"⟩, s)
  | HVal.invalid => (⟨400, "Validation Error"⟩, s)
  | HVal.val orgID =>
    match idParam with
    | HVal.missing => (⟨400, "Validation Error"⟩, s)
    | HVal.invalid => (⟨400, "Validation Error"⟩, s)
    | HVal.val projectID =>
      match body with
      | none => (⟨400, "Validation Error"⟩, s)
      | some req =>
        match updateProject s projectID req orgID with
        | Except.error _ => (⟨400, "Failed to update project"⟩, s)
        | Except.ok (_, s2) => (⟨200, "Project updated successfully"⟩, s2)

/-- `Handler.Delete` (DELETE `/api/v1/projects/id`), same header-based
authorization as `Handler.Update`. -/
def projectDeleteHandler (s : Store) (_userId : Nat) (orgHeader : HVal Nat)
    (idParam : HVal Nat) : HttpResponse × Store :=
  match orgHeader with
  | HVal.missing => (⟨401, "Organization ID required"⟩, s)
  | HVal.invalid => (⟨400, "Validation Error"⟩, s)
  | HVal.val orgID =>
    match idParam with
    | HVal.missing => (⟨400, "Validation Error"⟩, s)
    | HVal.invalid => (⟨400, "Validation Error"⟩, s)
    | HVal.val projectID =>
      match deleteProject s projectID orgID with
      | Except.error _ => (⟨400, "Failed to delete project"⟩, s)
      | Except.ok s2 => (⟨200, "Project deleted successfully"⟩, s2)

/-! ### Organization service (`internal/services/organization`) -/

/-- `dto.CreateOrganizationRequest`. -/
structure CreateOrganizationRequest where
  name : String
deriving DecidableEq, Repr

/-- `Service.validateCreateOrganization`. -/
def validateCreateOrganization (req : CreateOrganizationRequest) : Option String :=
  if goTrim req.name == "" then some "Organization name is required"
  else if req.name.length < 2 then some "Organization name must be at least 2 characters"
  else if req.name.length > 255 then some "Organization name must be less than 255 characters"
  else none

/-- `organization.Service.CreateOrganization`; `freshId` models
`uuid.New()`. -/
def createOrganization (s : Store) (req : CreateOrganizationRequest)
    (ownerID : Nat) (freshId : Nat) : Except String (Organization × Store) :=
  match validateCreateOrganization req with
  | some msg => Except.error msg
  | none =>
    if orgNameExistsForOwner s req.name ownerID then
      Except.error "Organization with this name already exists for user"
    else
      let o : Organization :=
        { id := freshId, name := goTrim req.name, ownerId := ownerID, deleted := false }
      Except.ok (o, orgInsert s o)

/-! ### Onboarding handler (`internal/handlers/onboarding`) -/

/-- `dto.OnboardingRequest`. -/
structure OnboardingRequest where
  organizationName : String
  projectName : String
deriving DecidableEq, Repr

/-- `Handler.CompleteOnboarding` (POST `/api/v1/onboarding`). `committed`
is the durable store; the GORM transaction is a working copy that becomes
durable only at `tx.Commit()`, and every error path calls `tx.Rollback()`
and answers with the untouched committed store. `newOrgId`, `newProjectId`
model `uuid.New()`; `entropy` models `crypto/rand`. -/
def completeOnboarding (committed : Store) (userHeader : HVal Nat)
    (body : Option OnboardingRequest) (newOrgId newProjectId : Nat)
    (entropy : Nat → List Nat) : HttpResponse × Store :=
  match userHeader with
  | HVal.missing => (⟨401, "User ID required"⟩, committed)
  | HVal.invalid => (⟨400, "Validation Error"⟩, committed)
  | HVal.val userID =>
    match body with
    | none => (⟨400, "Validation Error"⟩, committed)
    | some req =>
      let tx := committed
      match createOrganization tx ⟨req.organizationName⟩ userID newOrgId with
      | Except.error _ => (⟨400, "Failed to create organization"⟩, committed)
      | Except.ok (org, tx1) =>
        match createProject tx1 ⟨org.id, req.projectName⟩ entropy newProjectId with
        | Except.error _ => (⟨400, "Failed to create project"⟩, committed)
        | Except.ok (_, tx2) =>
          (⟨201, "Onboarding completed successfully"⟩, tx2)

/-! ### Claims C1, C2, C3 -/

/-- Concrete store used by several concrete evaluations: organization 10
named "Acme" owned by user 1, live project 20 named "Web" inside it. -/
def demoStore : Store :=
  ⟨[⟨10, "Acme", 1, false⟩], [⟨20, 10, "Web", "vltro_k", false⟩]⟩

/-- C1. Evaluation of the code at the failing input: user 2, who does not
own organization 10 (its owner is user 1), sends
PUT `/api/v1/projects/20` with header `X-Organization-ID: 10` and body
`{"name":"Renamed"}`. The handler reads the organization id from the
client-controlled header and only checks that the project belongs to that
organization, so the update succeeds (200) and the project row changes,
violating the ownership invariant. -/
theorem projectUpdate_nonOwner_succeeds :
    (orgGetByID demoStore 10).map (fun o => o.ownerId) = some 1 ∧
    (1 : Nat) ≠ 2 ∧
    (projectUpdateHandler demoStore 2 (HVal.val 10) (HVal.val 20)
        (some ⟨some "Renamed"⟩)).1.status = 200 ∧
    (projGetByID (projectUpdateHandler demoStore 2 (HVal.val 10) (HVal.val 20)
        (some ⟨some "Renamed"⟩)).2 20).map (fun p => p.name) = some "Renamed" := by
  decide

/-- C2, counterexample. A GET `/api/v1/projects/20` by user 2 for the
live project 20 whose organization is owned by user 1 returns 200, not
the 404 the claim requires for a project of an organization the caller
does not own. -/
theorem projectGetByID_foreign_not_404 :
    (orgGetByID demoStore 10).map (fun o => o.ownerId) = some 1 ∧
    (projGetByID demoStore 20).isSome = true ∧
    ¬ (projectGetByIDHandler demoStore 2 (HVal.val 20)).status = 404 := by
  decide

/-- C2, amended. A GET for a project id with no live row returns 404; a
GET for any live project returns 200 for every authenticated user,
owner or not (the read path performs no ownership check, so the status
conceals ownership but does reveal existence); 403 is never returned on
a project read; and the whole response is independent of the requesting
user. -/
theorem projectGetByID_status_spec (s : Store) (u u2 pid : Nat) :
    ((projGetByID s pid).isNone →
      projectGetByIDHandler s u (HVal.val pid) = ⟨404, "Project not found"⟩) ∧
    ((projGetByID s pid).isSome →
      (projectGetByIDHandler s u (HVal.val pid)).status = 200) ∧
    (∀ r, (projectGetByIDHandler s u r).status ≠ 403) ∧
    projectGetByIDHandler s u (HVal.val pid) =
      projectGetByIDHandler s u2 (HVal.val pid) := by
  refine ⟨?_, ?_, ?_, ?_⟩
  · intro h
    simp only [projectGetByIDHandler]
    cases hfind : projGetByID s pid with
    | none => rfl
    | some p => rw [hfind] at h; simp at h
  · intro h
    simp only [projectGetByIDHandler]
    cases hfind : projGetByID s pid with
    | none => rw [hfind] at h; simp at h
    | some p => rfl
  · intro r
    cases r with
    | missing => simp [projectGetByIDHandler]
    | invalid => simp [projectGetByIDHandler]
    | val pid2 =>
      simp only [projectGetByIDHandler]
      cases projGetByID s pid2 with
      | none => simp
      | some p => simp
  · rfl

/-- Witness for the amended C2 theorem at concrete inputs: id 99 has no
row (404) and live project 20 is readable by non-owner user 2 (200). -/
theorem projectGetByID_status_spec_witness :
    projectGetByIDHandler demoStore 2 (HVal.val 99) = ⟨404, "Project not found"⟩ ∧
    (projectGetByIDHandler demoStore 2 (HVal.val 20)).status = 200 :=
  ⟨(projectGetByID_status_spec demoStore 2 2 99).1 (by decide),
   (projectGetByID_status_spec demoStore 2 2 20).2.1 (by decide)⟩

/-- C3. Onboarding atomicity: whenever `CompleteOnboarding` answers with
anything other than 201 (missing or invalid user id, undecodable body,
organization validation / conflict, project validation / conflict,
API-key exhaustion), the committed store is returned unchanged — in
particular, when project creation fails after the organization was
inserted into the transaction, no organization row remains committed. -/
theorem onboarding_atomic (committed : Store) (userHeader : HVal Nat)
    (body : Option OnboardingRequest) (newOrgId newProjectId : Nat)
    (entropy : Nat → List Nat)
    (h : (completeOnboarding committed userHeader body newOrgId newProjectId
      entropy).1.status ≠ 201) :
    (completeOnboarding committed userHeader body newOrgId newProjectId
      entropy).2 = committed := by
  cases userHeader with
  | missing => rfl
  | invalid => rfl
  | val userID =>
    cases body with
    | none => rfl
    | some req =>
      simp only [completeOnboarding] at h ⊢
      cases horg : createOrganization committed ⟨req.organizationName⟩ userID newOrgId with
      | error e => simp [horg]
      | ok pair =>
        cases hproj : createProject pair.2 ⟨pair.1.id, req.projectName⟩ entropy newProjectId with
        | error e => simp [horg, hproj]
        | ok pair2 =>
          rw [horg] at h
          simp only at h
          rw [hproj] at h
          simp at h

/-- Witness for C3 at a concrete input exercising the interesting path:
the organization "NewOrg" is inserted inside the transaction, then the
project name "x" fails validation, and the committed store is unchanged. -/
theorem onboarding_atomic_witness :
    (completeOnboarding demoStore (HVal.val 1) (some ⟨"NewOrg", "x"⟩) 30 31
      (fun _ => [])).1.status = 400 ∧
    (completeOnboarding demoStore (HVal.val 1) (some ⟨"NewOrg", "x"⟩) 30 31
      (fun _ => [])).2 = demoStore :=
  ⟨by decide,
   onboarding_atomic demoStore (HVal.val 1) (some ⟨"NewOrg", "x"⟩) 30 31
     (fun _ => []) (by decide)⟩

/-! ### User data model and service (`internal/models/user.go`,
`internal/services/user`, `internal/repositories/user`) -/

/-- Row of the `users` table (`models.User`); fields not consulted by any
claim (timestamps, last sign-in, active) are omitted. -/
structure UserRec where
  id : Nat
  clerkUserID : String
  email : String
  fullName : String
  username : Option String
  imageURL : String
  emailVerified : Bool
  deleted : Bool
deriving DecidableEq, Repr

/-- The `users` table. -/
abbrev UserStore := List UserRec

/-- `user.Repository.ClerkUserIDExists` (GORM count over live rows). -/
def clerkUserIDExists (us : UserStore) (c : String) : Bool :=
  us.any (fun v => v.clerkUserID == c && !v.deleted)

/-- `user.Repository.GetByClerkUserID` (live rows only). -/
def userGetByClerkID (us : UserStore) (c : String) : Option UserRec :=
  us.find? (fun v => v.clerkUserID == c && !v.deleted)

/-- `user.Repository.GetByID` (live rows only). -/
def userGetByID (us : UserStore) (id : Nat) : Option UserRec :=
  us.find? (fun v => v.id == id && !v.deleted)

/-- `user.Repository.GetByUsername` (live rows only). -/
def userGetByUsername (us : UserStore) (uname : String) : Option UserRec :=
  us.find? (fun v => v.username == some uname && !v.deleted)

/-- `user.Repository.Update` (`db.Save` replaces the row with the same
primary key). -/
def userSave (us : UserStore) (u : UserRec) : UserStore :=
  us.map (fun v => if v.id == u.id then u else v)

/-- The message of the Postgres driver for a unique-index violation; it
is external to the repository (the GORM `uniqueIndex` tags on
`ClerkUserID`, `Email` and `Username` become plain unique indices) and,
in particular, does not contain the text "already exists". -/
def pgUniqueViolationMsg : String :=
  "duplicate key value violates unique constraint (SQLSTATE 23505)"

/-- `user.Repository.Create`: `db.Create` hits the unique indices on
clerk id, email and username (nullable, NULLs never conflict); the error
is wrapped by `errors.NewInternalError("Failed to create user", ...)`. -/
def dbUserCreate (us : UserStore) (u : UserRec) : Except AppErr UserStore :=
  if us.any (fun v => v.clerkUserID == u.clerkUserID || v.email == u.email ||
      (u.username.isSome && v.username == u.username)) then
    Except.error (newInternalError "Failed to create user" pgUniqueViolationMsg)
  else
    Except.ok (us ++ [u])

/-- `dto.CreateUserRequest`. -/
structure CreateUserRequest where
  clerkUserID : String
  email : String
  fullName : String
  username : Option String
  imageURL : String
  emailVerified : Bool
deriving DecidableEq, Repr

/-- `user.Service.validateCreateUser`. -/
def validateCreateUser (req : CreateUserRequest) : Option AppErr :=
  if goTrim req.clerkUserID == "" then
    some (newValidationError "Clerk user ID is required")
  else if goTrim req.email == "" then
    some (newValidationError "Email is required")
  else if goTrim req.fullName == "" then
    some (newValidationError "Full name is required")
  else if req.fullName.length < 2 then
    some (newValidationError "Full name must be at least 2 characters")
  else
    match req.username with
    | some uname =>
      if uname != "" && uname.length < 3 then
        some (newValidationError "Username must be at least 3 characters")
      else none
    | none => none

/-- `user.Service.CreateUser`; `freshId` models `uuid.New()`. Note the
service only pre-checks the Clerk id; email and username duplicates
surface from `dbUserCreate`. `EmailVerified` is not copied from the
request in the source, so it keeps the Go zero value `false`. -/
def createUser (us : UserStore) (req : CreateUserRequest) (freshId : Nat) :
    Except AppErr (UserRec × UserStore) :=
  match validateCreateUser req with
  | some e => Except.error e
  | none =>
    if clerkUserIDExists us req.clerkUserID then
      Except.error (newConflictError "User already exists with this Clerk ID"
        ("Clerk ID: " ++ req.clerkUserID))
    else
      let u : UserRec :=
        { id := freshId, clerkUserID := req.clerkUserID,
          email := goTrim req.email, fullName := goTrim req.fullName,
          username := req.username, imageURL := req.imageURL,
          emailVerified := false, deleted := false }
      match dbUserCreate us u with
      | Except.error e => Except.error e
      | Except.ok us2 => Except.ok (u, us2)

/-- `dto.UpdateUserRequest`. -/
structure UpdateUserReq where
  fullName : Option String
  username : Option String
  imageURL : Option String
deriving DecidableEq, Repr

/-- The username-conflict test inside `user.Service.UpdateUser`:
`GetByUsername` succeeded and found a different user. -/
def usernameConflict (us : UserStore) (user0 : UserRec) (req : UpdateUserReq) : Bool :=
  match req.username with
  | some uname =>
    if uname != "" then
      match userGetByUsername us uname with
      | some other => other.id != user0.id
      | none => false
    else false
  | none => false

/-- `user.Service.UpdateUser`. Field by field as in the source: fullName
is trimmed and set only when provided; username is assigned whenever the
request carries a (possibly empty) value and the conflict check passes;
imageURL is assigned when provided; email is never touched. -/
def updateUser (us : UserStore) (id : Nat) (req : UpdateUserReq) :
    Except AppErr (UserRec × UserStore) :=
  match userGetByID us id with
  | none => Except.error (newNotFoundError "User" "")
  | some user0 =>
    if usernameConflict us user0 req then
      Except.error (newConflictError "Username already taken" "")
    else
      let u1 := match req.fullName with
        | some f => { user0 with fullName := goTrim f }
        | none => user0
      let u2 := match req.username with
        | some uname => { u1 with username := some uname }
        | none => u1
      let u3 := match req.imageURL with
        | some i => { u2 with imageURL := i }
        | none => u2
      Except.ok (u3, userSave us u3)

/-! ### Webhook reconciler (`internal/handlers/webhook/webhook.go`) -/

/-- One entry of `data.email_addresses` in a Clerk webhook payload. -/
structure ClerkEmailAddress where
  id : String
  emailAddress : String
  verificationStatus : String
deriving DecidableEq, Repr

/-- The fields of `dto.ClerkUser` the webhook handler consults. -/
structure ClerkUser where
  id : String
  username : Option String
  firstName : Option String
  lastName : Option String
  imageURL : String
  primaryEmailAddressID : Option String
  emailAddresses : List ClerkEmailAddress
deriving DecidableEq, Repr

/-- Email selection of `clerkUserToCreateRequest`: the entry matching
`primary_email_address_id`, else the first entry, else the synthesized
`test+<id>@clerk.dev` placeholder. -/
def selectPrimaryEmail (cu : ClerkUser) : String × Bool :=
  let fromPrimary :=
    match cu.primaryEmailAddressID with
    | some pid =>
      match cu.emailAddresses.find? (fun a => a.id == pid) with
      | some a => (a.emailAddress, a.verificationStatus == "verified")
      | none => ("", false)
    | none => ("", false)
  let fromFirst :=
    if fromPrimary.1 == "" then
      match cu.emailAddresses with
      | a :: _ => (a.emailAddress, a.verificationStatus == "verified")
      | [] => fromPrimary
    else fromPrimary
  if fromFirst.1 == "" then ("test+" ++ cu.id ++ "@clerk.dev", false)
  else fromFirst

/-- Name joining of `clerkUserToCreateRequest` /
`clerkUserToUpdateRequest`. -/
def joinedName (cu : ClerkUser) : String :=
  match cu.firstName, cu.lastName with
  | some f, some l => goTrim (f ++ " " ++ l)
  | some f, none => goTrim f
  | none, some l => goTrim l
  | none, none => ""

/-- The local part of an email (`strings.Split(email, "@")[0]`). -/
def emailLocalPart (email : String) : String :=
  String.mk (email.data.takeWhile (fun c => c != '@'))

/-- `Handler.clerkUserToCreateRequest`: the email address is passed
through unchanged (no lower-casing anywhere on this path). -/
def clerkUserToCreateRequest (cu : ClerkUser) : CreateUserRequest :=
  let e := selectPrimaryEmail cu
  let name0 := joinedName cu
  let fullName := if name0 == "" && e.1 != "" then emailLocalPart e.1 else name0
  { clerkUserID := cu.id, email := e.1, fullName := fullName,
    username := cu.username, imageURL := cu.imageURL, emailVerified := e.2 }

/-- `Handler.clerkUserToUpdateRequest`: fullName only when a name field
was present (and joined non-empty); username passed through; imageURL
always provided (`&clerkUser.ImageURL` is never nil). -/
def clerkUserToUpdateRequest (cu : ClerkUser) : UpdateUserReq :=
  let fullName :=
    if cu.firstName.isSome || cu.lastName.isSome then
      let name := joinedName cu
      if name != "" then some name else none
    else none
  { fullName := fullName, username := cu.username, imageURL := some cu.imageURL }

/-- `Handler.handleUserCreated`: create the user; an error whose
lower-cased text contains "already exists" is answered 200, any other
error 500. -/
def handleUserCreated (us : UserStore) (cu : ClerkUser) (freshId : Nat) :
    HttpResponse × UserStore :=
  match createUser us (clerkUserToCreateRequest cu) freshId with
  | Except.error e =>
    if strContainsLower e.errString "already exists" then
      (⟨200, "User already exists"⟩, us)
    else
      (⟨500, "Failed to create user"⟩, us)
  | Except.ok (_, us2) => (⟨200, "User created successfully"⟩, us2)

/-- `Handler.handleUserUpdated`: look up by Clerk id (404 when absent),
then apply the partial update (500 on error). -/
def handleUserUpdated (us : UserStore) (cu : ClerkUser) :
    HttpResponse × UserStore :=
  match userGetByClerkID us cu.id with
  | none => (⟨404, "User not found"⟩, us)
  | some existing =>
    match updateUser us existing.id (clerkUserToUpdateRequest cu) with
    | Except.error _ => (⟨500, "Failed to update user"⟩, us)
    | Except.ok (_, us2) => (⟨200, "User updated successfully"⟩, us2)

/-! ### Claims C5, C8, C9 -/

theorem infixOf_append_left {α : Type} {l a : List α} (b : List α)
    (h : l <:+: a) : l <:+: a ++ b := by
  obtain ⟨s, t, rfl⟩ := h
  exact ⟨s, t ++ b, by simp⟩

theorem infixOf_append_right {α : Type} {l b : List α} (a : List α)
    (h : l <:+: b) : l <:+: a ++ b := by
  obtain ⟨s, t, rfl⟩ := h
  exact ⟨a ++ s, t, by simp⟩

theorem conflictErr_contains_already_exists (c : String) :
    strContainsLower
      (AppErr.errString (newConflictError "User already exists with this Clerk ID"
        ("Clerk ID: " ++ c)))
      "already exists" = true := by
  have hne : ((("Clerk ID: " ++ c) == "") = false) := by
    rw [beq_eq_false_iff_ne]
    intro h
    have h2 : ("Clerk ID: " ++ c).data = "".data := congrArg String.data h
    rw [String.data_append] at h2
    simp [List.append_eq_nil] at h2
  unfold strContainsLower
  rw [decide_eq_true_iff]
  simp only [AppErr.errString, newConflictError, hne, Bool.false_eq_true,
    if_false, String.data_append, List.map_append, List.append_assoc]
  apply infixOf_append_right
  apply infixOf_append_right
  apply infixOf_append_left
  decide

/-- Helper for C5: when the conversion of the event validates and a live
row with the event's IdP subject already exists, `handleUserCreated`
answers 200 "User already exists" and leaves the table unchanged. -/
theorem userCreated_dup_200 (us : UserStore) (cu : ClerkUser) (fid : Nat)
    (hv : validateCreateUser (clerkUserToCreateRequest cu) = none)
    (hex : clerkUserIDExists us cu.id = true) :
    handleUserCreated us cu fid = (⟨200, "User already exists"⟩, us) := by
  have hid : (clerkUserToCreateRequest cu).clerkUserID = cu.id := rfl
  unfold handleUserCreated createUser
  rw [hv, hid, hex]
  simp only [if_true]
  rw [conflictErr_contains_already_exists cu.id]
  rfl

/-- C5, amended. The user-creation operation reports "already exists"
only for a duplicate IdP subject: (1) if a live user with the event's
subject exists (and the converted request validates), `user.created` is
answered 200 "User already exists" with the user table unchanged; (2)
re-delivering a `user.created` event after a successful first delivery
yields 200 and the same terminal state, because the subject then exists.
Email or handle uniqueness violations do NOT take this path (see the
counterexample): they surface as internal errors and are answered 500. -/
theorem userCreated_idempotent_subject (us us2 : UserStore) (cu : ClerkUser)
    (f1 f2 : Nat) :
    (validateCreateUser (clerkUserToCreateRequest cu) = none →
      clerkUserIDExists us cu.id = true →
      handleUserCreated us cu f1 = (⟨200, "User already exists"⟩, us)) ∧
    (handleUserCreated us cu f1 = (⟨200, "User created successfully"⟩, us2) →
      handleUserCreated us2 cu f2 = (⟨200, "User already exists"⟩, us2)) := by
  constructor
  · intro hv hex
    exact userCreated_dup_200 us cu f1 hv hex
  · intro h1
    have hid : (clerkUserToCreateRequest cu).clerkUserID = cu.id := rfl
    unfold handleUserCreated at h1
    cases hcr : createUser us (clerkUserToCreateRequest cu) f1 with
    | error e =>
      rw [hcr] at h1
      by_cases hc : strContainsLower e.errString "already exists" = true
      · simp [hc] at h1
      · simp [hc] at h1
    | ok pair =>
      rw [hcr] at h1
      simp only at h1
      have hus2 : pair.2 = us2 := congrArg Prod.snd h1
      unfold createUser at hcr
      cases hv : validateCreateUser (clerkUserToCreateRequest cu) with
      | some e => rw [hv] at hcr; simp at hcr
      | none =>
        rw [hv] at hcr
        simp only at hcr
        cases hex : clerkUserIDExists us (clerkUserToCreateRequest cu).clerkUserID with
        | true => rw [hex] at hcr; simp at hcr
        | false =>
          rw [hex] at hcr
          simp only [Bool.false_eq_true, if_false] at hcr
          cases hdb : dbUserCreate us
            { id := f1, clerkUserID := (clerkUserToCreateRequest cu).clerkUserID,
              email := goTrim (clerkUserToCreateRequest cu).email,
              fullName := goTrim (clerkUserToCreateRequest cu).fullName,
              username := (clerkUserToCreateRequest cu).username,
              imageURL := (clerkUserToCreateRequest cu).imageURL,
              emailVerified := false, deleted := false } with
          | error e => rw [hdb] at hcr; simp at hcr
          | ok usNew =>
            rw [hdb] at hcr
            simp only [Except.ok.injEq] at hcr
            unfold dbUserCreate at hdb
            by_cases hany : (us.any (fun v =>
                v.clerkUserID == (clerkUserToCreateRequest cu).clerkUserID ||
                v.email == goTrim (clerkUserToCreateRequest cu).email ||
                ((clerkUserToCreateRequest cu).username.isSome &&
                  v.username == (clerkUserToCreateRequest cu).username))) = true
            · rw [if_pos hany] at hdb; simp at hdb
            · rw [if_neg (by simp_all)] at hdb
              have husNew : usNew = us ++
                  [{ id := f1, clerkUserID := (clerkUserToCreateRequest cu).clerkUserID,
                     email := goTrim (clerkUserToCreateRequest cu).email,
                     fullName := goTrim (clerkUserToCreateRequest cu).fullName,
                     username := (clerkUserToCreateRequest cu).username,
                     imageURL := (clerkUserToCreateRequest cu).imageURL,
                     emailVerified := false, deleted := false }] := by
                cases hdb; rfl
              have hpair2 : pair.2 = usNew := by
                cases hcr; rfl
              have hex2 : clerkUserIDExists us2 cu.id = true := by
                rw [← hus2, hpair2, husNew]
                simp [clerkUserIDExists, List.any_append, hid]
              exact userCreated_dup_200 us2 cu f2 hv hex2

/-- The row created by a successful S4-style first delivery (subject
`idp_x`, primary email `a@b.co`, names A and B). -/
def uS4 : UserRec :=
  ⟨1, "idp_x", "a@b.co", "A B", none, "", false, false⟩

/-- The S4-style `user.created` payload. -/
def cuS4 : ClerkUser :=
  ⟨"idp_x", none, some "A", some "B", "", some "e1",
    [⟨"e1", "a@b.co", "verified"⟩]⟩

/-- Witness for the amended C5 theorem: replaying the S4 event after its
successful first delivery answers 200 and leaves the single row
unchanged. -/
theorem userCreated_idempotent_subject_witness :
    handleUserCreated [uS4] cuS4 2 = (⟨200, "User already exists"⟩, [uS4]) :=
  (userCreated_idempotent_subject [] [uS4] cuS4 1 2).2 (by decide)

/-- A store already holding the email `dup@x.co` under a different IdP
subject. -/
def dupEmailStore : UserStore :=
  [⟨1, "c1", "dup@x.co", "Someone", none, "", false, false⟩]

/-- A `user.created` payload with a fresh subject but the duplicate
email. -/
def cuDup : ClerkUser :=
  ⟨"c2", none, some "A", some "B", "", some "e1",
    [⟨"e1", "dup@x.co", "verified"⟩]⟩

/-- C5, counterexample. A `user.created` event whose creation fails on
EMAIL uniqueness (subject fresh, email taken) is answered 500, not the
200 "user already exists" the claim states for "any of IdP subject,
email, or handle uniqueness": the wrapped driver error does not contain
the text "already exists". -/
theorem userCreated_emailDup_500 :
    clerkUserIDExists dupEmailStore "c2" = false ∧
    (dupEmailStore.any (fun v => v.email == "dup@x.co")) = true ∧
    (handleUserCreated dupEmailStore cuDup 2).1.status = 500 ∧
    ¬ (handleUserCreated dupEmailStore cuDup 2).1.status = 200 := by
  refine ⟨by decide, by decide, by decide, by decide⟩

/-! ### Claim C8 -/

/-- Uniqueness of primary keys: a live member is exactly what
`userGetByID` finds when the id column is duplicate-free. -/
theorem userGetByID_of_mem (us : UserStore)
    (hwf : (us.map (fun v => v.id)).Nodup) (u0 : UserRec)
    (hmem : u0 ∈ us) (hlive : u0.deleted = false) :
    userGetByID us u0.id = some u0 := by
  induction us with
  | nil => cases hmem
  | cons v tl ih =>
    by_cases hid : v.id = u0.id
    · have hv : v = u0 := by
        rcases List.mem_cons.mp hmem with h | h
        · exact h.symm
        · exact List.inj_on_of_nodup_map hwf (List.mem_cons_self v tl)
            (List.mem_cons_of_mem v h) hid
      subst hv
      unfold userGetByID
      rw [List.find?_cons_of_pos _ (by simp [hlive])]
    · have hmem2 : u0 ∈ tl := by
        rcases List.mem_cons.mp hmem with h | h
        · exact absurd (h ▸ rfl) hid
        · exact h
      have hwf2 : (tl.map (fun v => v.id)).Nodup := by
        simp only [List.map_cons, List.nodup_cons] at hwf
        exact hwf.2
      unfold userGetByID
      rw [List.find?_cons_of_neg]
      · exact ih hwf2 hmem2
      · simp [hid]

/-- Saving a row whose `f`-projection agrees with every same-id row
leaves the `f`-projection of the table unchanged. -/
theorem userSave_map_frame {α : Type} (us : UserStore) (u3 : UserRec)
    (f : UserRec → α)
    (h : ∀ v ∈ us, v.id = u3.id → f u3 = f v) :
    (userSave us u3).map f = us.map f := by
  unfold userSave
  rw [List.map_map]
  apply List.map_congr_left
  intro v hv
  by_cases hid : v.id = u3.id
  · simp only [Function.comp_apply, hid, beq_self_eq_true, if_true]
    exact h v hv hid
  · simp only [Function.comp_apply]
    rw [if_neg (by simp [hid])]

/-- Shape of a successful `updateUser`: the saved row differs from the
looked-up row exactly as the request dictates, and `email` (and the
soft-delete marker) are untouched. -/
theorem updateUser_ok_shape (us : UserStore) (id : Nat) (req : UpdateUserReq)
    (u3 : UserRec) (us3 : UserStore)
    (h : updateUser us id req = Except.ok (u3, us3)) :
    ∃ user0, userGetByID us id = some user0 ∧ us3 = userSave us u3 ∧
      u3.id = user0.id ∧ u3.email = user0.email ∧ u3.deleted = user0.deleted ∧
      u3.imageURL = (match req.imageURL with
        | some i => i
        | none => user0.imageURL) ∧
      u3.username = (match req.username with
        | some x => some x
        | none => user0.username) ∧
      u3.fullName = (match req.fullName with
        | some f => goTrim f
        | none => user0.fullName) := by
  unfold updateUser at h
  cases hg : userGetByID us id with
  | none => rw [hg] at h; simp at h
  | some user0 =>
    rw [hg] at h
    simp only at h
    by_cases hc : usernameConflict us user0 req = true
    · rw [if_pos hc] at h; simp at h
    · rw [if_neg hc] at h
      refine ⟨user0, rfl, ?_⟩
      rcases hf : req.fullName with _ | f <;> rcases hu : req.username with _ | x <;>
        rcases hi : req.imageURL with _ | i <;>
        · rw [hf, hu, hi] at h
          simp only [Except.ok.injEq, Prod.mk.injEq] at h
          obtain ⟨h3, h4⟩ := h
          subst h3
          exact ⟨h4.symm, rfl, rfl, rfl, rfl, rfl, rfl⟩

/-- C8. On a `user.updated` event: an unknown IdP subject is answered
404 "User not found" with the table untouched; the stored email of every
row is unchanged whatever happens; full names change only if a name
field was present in the payload; and on success the saved row keeps the
old email, takes the payload image URL, and takes the payload username
exactly when one was provided. Requires the primary-key column to be
duplicate-free. -/
theorem userUpdated_frame (us : UserStore) (cu : ClerkUser)
    (hwf : (us.map (fun v => v.id)).Nodup) :
    (userGetByClerkID us cu.id = none →
      handleUserUpdated us cu = (⟨404, "User not found"⟩, us)) ∧
    ((handleUserUpdated us cu).2.map (fun v => (v.id, v.email)) =
      us.map (fun v => (v.id, v.email))) ∧
    (cu.firstName = none → cu.lastName = none →
      (handleUserUpdated us cu).2.map (fun v => (v.id, v.fullName)) =
        us.map (fun v => (v.id, v.fullName))) ∧
    (∀ u0, userGetByClerkID us cu.id = some u0 →
      (handleUserUpdated us cu).1.status = 200 →
      ∃ u1, (handleUserUpdated us cu).2 = userSave us u1 ∧ u1.id = u0.id ∧
        u1.email = u0.email ∧ u1.imageURL = cu.imageURL ∧
        u1.username = (match cu.username with
          | some x => some x
          | none => u0.username)) := by
  cases hfind : userGetByClerkID us cu.id with
  | none =>
    have hres : handleUserUpdated us cu = (⟨404, "User not found"⟩, us) := by
      unfold handleUserUpdated
      rw [hfind]
    refine ⟨fun _ => hres, by rw [hres], fun _ _ => by rw [hres], ?_⟩
    intro u0 hsome
    cases hsome
  | some ex =>
    have hexmem : ex ∈ us := List.mem_of_find?_eq_some hfind
    have hexpred := List.find?_some hfind
    cases hupd : updateUser us ex.id (clerkUserToUpdateRequest cu) with
    | error e =>
      have hres : handleUserUpdated us cu = (⟨500, "Failed to update user"⟩, us) := by
        unfold handleUserUpdated
        rw [hfind]
        dsimp only
        rw [hupd]
      refine ⟨?_, by rw [hres], fun _ _ => by rw [hres], ?_⟩
      · intro hnone; cases hnone
      · intro u0 _hsome h200
        rw [hres] at h200
        simp at h200
    | ok pair =>
      obtain ⟨u3, us3⟩ := pair
      have hres : handleUserUpdated us cu =
          (⟨200, "User updated successfully"⟩, us3) := by
        unfold handleUserUpdated
        rw [hfind]
        dsimp only
        rw [hupd]
      obtain ⟨user0, hg, hsave, hid3, hemail3, _hdel3, himg3, huser3, hname3⟩ :=
        updateUser_ok_shape us ex.id (clerkUserToUpdateRequest cu) u3 us3 hupd
      have huser0mem : user0 ∈ us := List.mem_of_find?_eq_some hg
      have huser0pred := List.find?_some hg
      have huser0id : user0.id = ex.id := by
        simp only [Bool.and_eq_true, beq_iff_eq] at huser0pred
        exact huser0pred.1
      have huser0eq : user0 = ex :=
        List.inj_on_of_nodup_map hwf huser0mem hexmem huser0id
      have hframe : ∀ {α : Type} (f : UserRec → α), (f u3 = f user0) →
          us3.map f = us.map f := by
        intro α f hf
        rw [hsave]
        apply userSave_map_frame
        intro v hv hvid
        have hveq : v = user0 :=
          List.inj_on_of_nodup_map hwf hv huser0mem (hvid.trans hid3)
        rw [hveq, hf]
      refine ⟨?_, ?_, ?_, ?_⟩
      · intro hnone; cases hnone
      · rw [hres]
        refine hframe (fun v => (v.id, v.email)) ?_
        dsimp only
        rw [hid3, hemail3]
      · intro hfn hln
        have hreqf : (clerkUserToUpdateRequest cu).fullName = none := by
          simp [clerkUserToUpdateRequest, hfn, hln]
        rw [hres]
        refine hframe (fun v => (v.id, v.fullName)) ?_
        dsimp only
        rw [hid3, hname3, hreqf]
      · intro u0 hsome _h200
        have hu0 : u0 = ex := by
          injection hsome with h
          exact h.symm
        refine ⟨u3, by rw [hres]; exact hsave, ?_, ?_, ?_, ?_⟩
        · rw [hid3, huser0eq, hu0]
        · rw [hemail3, huser0eq, hu0]
        · rw [himg3]; rfl
        · rw [huser3, huser0eq, hu0]; rfl

/-- Witness for C8 at a concrete input: one user `idp_x`; the payload
carries only a new username and image URL, no name fields; the update
succeeds, the email is untouched and username/image are applied. -/
theorem userUpdated_frame_witness :
    (handleUserUpdated [uS4]
        ⟨"idp_x", some "newhandle", none, none, "http://img", none, []⟩).2.map
      (fun v => (v.id, v.email)) = [(1, "a@b.co")] ∧
    (∃ u1, (handleUserUpdated [uS4]
        ⟨"idp_x", some "newhandle", none, none, "http://img", none, []⟩).2 =
          userSave [uS4] u1 ∧ u1.id = uS4.id ∧ u1.email = uS4.email ∧
        u1.imageURL = "http://img" ∧
        u1.username = (match (some "newhandle" : Option String) with
          | some x => some x
          | none => uS4.username)) :=
  ⟨(userUpdated_frame [uS4]
      ⟨"idp_x", some "newhandle", none, none, "http://img", none, []⟩
      (by decide)).2.1,
   (userUpdated_frame [uS4]
      ⟨"idp_x", some "newhandle", none, none, "http://img", none, []⟩
      (by decide)).2.2.2 uS4 (by decide) (by decide)⟩

/-! ### Claim C9 -/

/-- C9, amended. The persisted email of a created user equals the
whitespace-trimmed source email with its case preserved (the row is
appended as-is to the table), and the webhook conversion passes the
selected payload address through unchanged — no lower-casing happens
anywhere on the create path. -/
theorem createUser_email_trimmed (us : UserStore) (req : CreateUserRequest)
    (fid : Nat) (u : UserRec) (us2 : UserStore)
    (h : createUser us req fid = Except.ok (u, us2)) :
    u.email = goTrim req.email ∧ us2 = us ++ [u] ∧
    (∀ cu, (clerkUserToCreateRequest cu).email = (selectPrimaryEmail cu).1) := by
  unfold createUser at h
  cases hv : validateCreateUser req with
  | some e => rw [hv] at h; simp at h
  | none =>
    rw [hv] at h
    simp only at h
    by_cases hex : clerkUserIDExists us req.clerkUserID = true
    · rw [if_pos hex] at h; simp at h
    · rw [if_neg hex] at h
      cases hdb : dbUserCreate us
          { id := fid, clerkUserID := req.clerkUserID, email := goTrim req.email,
            fullName := goTrim req.fullName, username := req.username,
            imageURL := req.imageURL, emailVerified := false, deleted := false } with
      | error e => rw [hdb] at h; simp at h
      | ok usNew =>
        rw [hdb] at h
        simp only [Except.ok.injEq, Prod.mk.injEq] at h
        obtain ⟨hu, hus⟩ := h
        unfold dbUserCreate at hdb
        by_cases hany : (us.any (fun v => v.clerkUserID == req.clerkUserID ||
            v.email == goTrim req.email ||
            (req.username.isSome && v.username == req.username))) = true
        · rw [if_pos hany] at hdb; simp at hdb
        · rw [if_neg hany] at hdb
          injection hdb with husNew
          refine ⟨by rw [← hu], ?_, fun cu => rfl⟩
          rw [← hus, ← husNew, ← hu]

/-- The `user.created` payload whose primary email has mixed case. -/
def cuMixedCase : ClerkUser :=
  ⟨"c9", none, some "Ann", none, "", some "e1",
    [⟨"e1", "A@B.co", "verified"⟩]⟩

/-- C9, counterexample. Creating a user from a payload whose source email
is `A@B.co` persists `A@B.co` verbatim: the stored value differs from the
lower-casing of the source address, so emails are NOT stored in
lower-cased canonical form. -/
theorem createUser_email_not_lowercased :
    ((handleUserCreated [] cuMixedCase 1).2.map (fun v => v.email)) = ["A@B.co"] ∧
    ¬ ("A@B.co" = String.mk ("A@B.co".data.map Char.toLower)) := by
  refine ⟨by decide, by decide⟩

/-- Witness for the amended C9 theorem at a concrete input: the request
email carries surrounding blanks and mixed case; the stored email is the
trimmed, case-preserved value. -/
theorem createUser_email_trimmed_witness :
    (⟨1, "c1", "X@Y.co", "Name", none, "", false, false⟩ : UserRec).email =
      goTrim " X@Y.co " ∧
    ([] : UserStore) ++ [⟨1, "c1", "X@Y.co", "Name", none, "", false, false⟩] =
      [(⟨1, "c1", "X@Y.co", "Name", none, "", false, false⟩ : UserRec)] :=
  ⟨(createUser_email_trimmed [] ⟨"c1", " X@Y.co ", "Name", none, "", false⟩ 1
      ⟨1, "c1", "X@Y.co", "Name", none, "", false, false⟩
      [⟨1, "c1", "X@Y.co", "Name", none, "", false, false⟩] (by rfl)).1,
   ((createUser_email_trimmed [] ⟨"c1", " X@Y.co ", "Name", none, "", false⟩ 1
      ⟨1, "c1", "X@Y.co", "Name", none, "", false, false⟩
      [⟨1, "c1", "X@Y.co", "Name", none, "", false, false⟩] (by rfl)).2.1).symm ▸ rfl⟩

/-! ### Clerk JWT middleware (`src/unnamed/part_003`, `ClerkJWTMiddleware`,
`findKeyInJWKS`) -/

/-- One JWKS entry (`middleware.JWK`); `kty` / `use` are never consulted. -/
structure JWK where
  kid : String
  n : String
  e : String
deriving DecidableEq, Repr

/-- `findKeyInJWKS`: scan for the matching `kid`
(`jwkToRSAPublicKey`, an external base64/bignum conversion, is modelled
as returning the matching entry). The Go error message interpolates the
kid between single quotes. -/
def findKeyInJWKS (keys : List JWK) (kid : String) : Except String JWK :=
  match keys.find? (fun k => k.kid == kid) with
  | some k => Except.ok k
  | none => Except.error "key with kid not found"

/-- Outcome of the external `jwt.Parse` applied to a token string,
before the keyfunc consults the JWKS: either the compact JWS does not
parse at all, or it parses with an optional `kid` header, a signature
validity bit, an expiry bit (`exp`/`nbf`/`iat` validation), and its
claim set. -/
inductive TokenShape where
  | unparsable : TokenShape
  | parsed : Option String → Bool → Bool → List (String × String) → TokenShape
deriving DecidableEq, Repr

/-- Claim lookup (`claims["sub"]`). -/
def claimLookup (cs : List (String × String)) (k : String) : Option String :=
  (cs.find? (fun p => p.1 == k)).map (fun p => p.2)

/-- The claim set of a parse outcome. -/
def claimsOf : TokenShape → List (String × String)
  | TokenShape.unparsable => []
  | TokenShape.parsed _ _ _ cs => cs

/-- Result of the middleware: either a response is written and the
wrapped handler is never invoked, or the request is forwarded and the
inner handler observes the given `X-User-ID` header value. -/
inductive MWResult where
  | rejected : Nat → String → MWResult
  | forwarded : String → MWResult
deriving DecidableEq, Repr

/-- `r.Header.Set("X-User-ID", internalUserID)`: the map overwrite
discards whatever value the client supplied. -/
def headerSetXUserID (_clientValue : String) (internalUserID : String) : String :=
  internalUserID

/-- `strings.TrimPrefix(authHeader, "Bearer ")` when the prefix is
present. -/
def bearerToken (h : String) : String :=
  String.mk (h.data.drop 7)

/-- `ClerkJWTMiddleware`. `decode` is the external `jwt.Parse`
(signature verification against the key resolved by the keyfunc and
temporal-claim validation included); `bridge` is
`getCachedInternalUserID`, the IdP-subject → internal-id resolution;
`authHeader` is the `Authorization` header (`""` when absent) and
`clientXUserID` the client-supplied `X-User-ID` header. Every failure
writes a 401 via `response.SendUnauthorized` (the Go reason strings with
apostrophes are shortened here). -/
def clerkJWTMiddleware (decode : String → TokenShape) (jwks : List JWK)
    (bridge : String → Except String String) (authHeader : String)
    (clientXUserID : String) : MWResult :=
  if authHeader == "" then
    MWResult.rejected 401 "Authorization header required"
  else if !("Bearer ".data.isPrefixOf authHeader.data) then
    MWResult.rejected 401 "Invalid authorization format"
  else
    match decode (bearerToken authHeader) with
    | TokenShape.unparsable => MWResult.rejected 401 "Invalid token"
    | TokenShape.parsed kid sigValid expired claims =>
      match kid with
      | none => MWResult.rejected 401 "Invalid token"
      | some kd =>
        match findKeyInJWKS jwks kd with
        | Except.error _ => MWResult.rejected 401 "Invalid token"
        | Except.ok _ =>
          if !sigValid then MWResult.rejected 401 "Invalid token"
          else if expired then MWResult.rejected 401 "Invalid token"
          else
            match claimLookup claims "sub" with
            | none => MWResult.rejected 401 "Invalid token: user ID not found"
            | some sub =>
              if sub == "" then
                MWResult.rejected 401 "Invalid token: user ID not found"
              else
                match bridge sub with
                | Except.error _ => MWResult.rejected 401 "User not found"
                | Except.ok internalUserID =>
                  MWResult.forwarded (headerSetXUserID clientXUserID internalUserID)

/-- Whether the middleware rejected the request with status 401. -/
def rejects401 : MWResult → Bool
  | MWResult.rejected 401 _ => true
  | _ => false

/-- Whether the wrapped handler runs (and hence any downstream side
effect can occur). -/
def invokesHandler : MWResult → Bool
  | MWResult.forwarded _ => true
  | MWResult.rejected _ _ => false

/-- C6. Token rejection completeness: for each input class — missing
Authorization header, wrong prefix, empty token, unparseable JWS,
unknown kid, bad signature, expired token, missing sub claim — the
middleware answers 401 and the wrapped handler is never invoked (the
four JWS-level classes are failure outcomes of the external `jwt.Parse`
with the keyfunc of the source; an unknown kid is a `findKeyInJWKS`
miss). -/
theorem clerkJWT_rejection_complete (decode : String → TokenShape)
    (jwks : List JWK) (bridge : String → Except String String) (cx h : String)
    (kd : String) (expired0 : Bool) (cs : List (String × String)) :
    (rejects401 (clerkJWTMiddleware decode jwks bridge "" cx) = true ∧
      invokesHandler (clerkJWTMiddleware decode jwks bridge "" cx) = false) ∧
    (h ≠ "" → "Bearer ".data.isPrefixOf h.data = false →
      rejects401 (clerkJWTMiddleware decode jwks bridge h cx) = true ∧
      invokesHandler (clerkJWTMiddleware decode jwks bridge h cx) = false) ∧
    (decode "" = TokenShape.unparsable →
      rejects401 (clerkJWTMiddleware decode jwks bridge "Bearer " cx) = true ∧
      invokesHandler (clerkJWTMiddleware decode jwks bridge "Bearer " cx) = false) ∧
    (h ≠ "" → "Bearer ".data.isPrefixOf h.data = true →
      decode (bearerToken h) = TokenShape.unparsable →
      rejects401 (clerkJWTMiddleware decode jwks bridge h cx) = true ∧
      invokesHandler (clerkJWTMiddleware decode jwks bridge h cx) = false) ∧
    (h ≠ "" → "Bearer ".data.isPrefixOf h.data = true →
      decode (bearerToken h) = TokenShape.parsed (some kd) true expired0 cs →
      jwks.find? (fun k => k.kid == kd) = none →
      rejects401 (clerkJWTMiddleware decode jwks bridge h cx) = true ∧
      invokesHandler (clerkJWTMiddleware decode jwks bridge h cx) = false) ∧
    (h ≠ "" → "Bearer ".data.isPrefixOf h.data = true →
      decode (bearerToken h) = TokenShape.parsed (some kd) false expired0 cs →
      rejects401 (clerkJWTMiddleware decode jwks bridge h cx) = true ∧
      invokesHandler (clerkJWTMiddleware decode jwks bridge h cx) = false) ∧
    (h ≠ "" → "Bearer ".data.isPrefixOf h.data = true →
      decode (bearerToken h) = TokenShape.parsed (some kd) true true cs →
      rejects401 (clerkJWTMiddleware decode jwks bridge h cx) = true ∧
      invokesHandler (clerkJWTMiddleware decode jwks bridge h cx) = false) ∧
    (h ≠ "" → "Bearer ".data.isPrefixOf h.data = true →
      decode (bearerToken h) = TokenShape.parsed (some kd) true false cs →
      claimLookup cs "sub" = none →
      rejects401 (clerkJWTMiddleware decode jwks bridge h cx) = true ∧
      invokesHandler (clerkJWTMiddleware decode jwks bridge h cx) = false) := by
  refine ⟨⟨rfl, rfl⟩, ?_, ?_, ?_, ?_, ?_, ?_, ?_⟩
  · intro h1 h2
    have hb : (h == "") = false := beq_eq_false_iff_ne.mpr h1
    constructor <;> simp [clerkJWTMiddleware, hb, h2, rejects401, invokesHandler]
  · intro hdec
    have hb : bearerToken "Bearer " = "" := by decide
    have hp : "Bearer ".data.isPrefixOf ("Bearer " : String).data = true := by decide
    constructor <;>
      simp [clerkJWTMiddleware, hb, hdec, rejects401, invokesHandler, hp]
  · intro h1 h2 hdec
    have hb : (h == "") = false := beq_eq_false_iff_ne.mpr h1
    constructor <;> simp [clerkJWTMiddleware, hb, h2, hdec, rejects401, invokesHandler]
  · intro h1 h2 hdec hfind
    have hb : (h == "") = false := beq_eq_false_iff_ne.mpr h1
    constructor <;> simp [clerkJWTMiddleware, hb, h2, hdec, findKeyInJWKS, hfind,
      rejects401, invokesHandler]
  · intro h1 h2 hdec
    have hb : (h == "") = false := beq_eq_false_iff_ne.mpr h1
    cases hf : jwks.find? (fun k => k.kid == kd) with
    | none =>
      constructor <;> simp [clerkJWTMiddleware, hb, h2, hdec, findKeyInJWKS, hf,
        rejects401, invokesHandler]
    | some k =>
      constructor <;> simp [clerkJWTMiddleware, hb, h2, hdec, findKeyInJWKS, hf,
        rejects401, invokesHandler]
  · intro h1 h2 hdec
    have hb : (h == "") = false := beq_eq_false_iff_ne.mpr h1
    cases hf : jwks.find? (fun k => k.kid == kd) with
    | none =>
      constructor <;> simp [clerkJWTMiddleware, hb, h2, hdec, findKeyInJWKS, hf,
        rejects401, invokesHandler]
    | some k =>
      constructor <;> simp [clerkJWTMiddleware, hb, h2, hdec, findKeyInJWKS, hf,
        rejects401, invokesHandler]
  · intro h1 h2 hdec hsub
    have hb : (h == "") = false := beq_eq_false_iff_ne.mpr h1
    cases hf : jwks.find? (fun k => k.kid == kd) with
    | none =>
      constructor <;> simp [clerkJWTMiddleware, hb, h2, hdec, findKeyInJWKS, hf,
        rejects401, invokesHandler]
    | some k =>
      constructor <;> simp [clerkJWTMiddleware, hb, h2, hdec, findKeyInJWKS, hf,
        hsub, rejects401, invokesHandler]

/-- Concrete `jwt.Parse` oracle for witnesses: one known token that is
expired, everything else unparseable. -/
def decodeW : String → TokenShape := fun s =>
  if s == "tok-expired" then TokenShape.parsed (some "k1") true true [("sub", "u")]
  else TokenShape.unparsable

/-- Witness for C6 at a concrete input: an expired token is rejected 401
and the handler does not run. -/
theorem clerkJWT_rejection_complete_witness :
    rejects401 (clerkJWTMiddleware decodeW [⟨"k1", "n", "e"⟩]
      (fun _ => Except.ok "internal-1") "Bearer tok-expired" "spoofed") = true ∧
    invokesHandler (clerkJWTMiddleware decodeW [⟨"k1", "n", "e"⟩]
      (fun _ => Except.ok "internal-1") "Bearer tok-expired" "spoofed") = false :=
  (clerkJWT_rejection_complete decodeW [⟨"k1", "n", "e"⟩]
    (fun _ => Except.ok "internal-1") "spoofed" "Bearer tok-expired" "k1" false
    [("sub", "u")]).2.2.2.2.2.2.1 (by decide) (by decide) (by decide)

/-- C10. The `X-User-ID` header observed by the wrapped handler is the
internal id resolved from the verified token's `sub` claim, regardless
of any client-supplied `X-User-ID` value: two requests differing only in
that header produce identical middleware results (hence identical
handler behaviour), and a forwarded value is always the bridge
resolution of the token's non-empty `sub`. -/
theorem xUserID_header_overwrite (decode : String → TokenShape) (jwks : List JWK)
    (bridge : String → Except String String) (h c1 c2 : String) :
    clerkJWTMiddleware decode jwks bridge h c1 =
      clerkJWTMiddleware decode jwks bridge h c2 ∧
    (∀ v, clerkJWTMiddleware decode jwks bridge h c1 = MWResult.forwarded v →
      ∃ sub, claimLookup (claimsOf (decode (bearerToken h))) "sub" = some sub ∧
        sub ≠ "" ∧ bridge sub = Except.ok v) := by
  constructor
  · rfl
  · intro v hfw
    unfold clerkJWTMiddleware at hfw
    by_cases h0 : (h == "") = true
    · rw [if_pos h0] at hfw; cases hfw
    · rw [if_neg h0] at hfw
      by_cases h1 : (!("Bearer ".data.isPrefixOf h.data)) = true
      · rw [if_pos h1] at hfw; cases hfw
      · rw [if_neg h1] at hfw
        cases hdec : decode (bearerToken h) with
        | unparsable => rw [hdec] at hfw; cases hfw
        | parsed kid sigValid expired claims =>
          rw [hdec] at hfw
          cases kid with
          | none => cases hfw
          | some kd =>
            dsimp only at hfw
            cases hfk : findKeyInJWKS jwks kd with
            | error m => rw [hfk] at hfw; cases hfw
            | ok k =>
              rw [hfk] at hfw
              dsimp only at hfw
              by_cases hsv : (!sigValid) = true
              · rw [if_pos hsv] at hfw; cases hfw
              · rw [if_neg hsv] at hfw
                by_cases hex : expired = true
                · rw [if_pos hex] at hfw; cases hfw
                · rw [if_neg hex] at hfw
                  cases hsub : claimLookup claims "sub" with
                  | none => rw [hsub] at hfw; cases hfw
                  | some sub =>
                    rw [hsub] at hfw
                    dsimp only at hfw
                    by_cases hse : (sub == "") = true
                    · rw [if_pos hse] at hfw; cases hfw
                    · rw [if_neg hse] at hfw
                      cases hbr : bridge sub with
                      | error m => rw [hbr] at hfw; cases hfw
                      | ok internalId =>
                        rw [hbr] at hfw
                        dsimp only at hfw
                        refine ⟨sub, ?_, ?_, ?_⟩
                        · exact hsub
                        · intro hcontra
                          rw [hcontra] at hse
                          exact hse (by decide)
                        · rw [hbr]
                          injection hfw with hv
                          rw [← hv]
                          rfl

/-- Concrete `jwt.Parse` oracle with one valid token. -/
def decodeGood : String → TokenShape := fun s =>
  if s == "tok-good" then TokenShape.parsed (some "k1") true false [("sub", "user_abc")]
  else TokenShape.unparsable

/-- Concrete subject → internal-id bridge. -/
def bridgeW : String → Except String String := fun s =>
  if s == "user_abc" then Except.ok "internal-1" else Except.error "user not found"

/-- Witness for C10 at a concrete input: two requests with different
client-supplied `X-User-ID` values produce the same result, and the
forwarded header value is the bridge resolution of the token's `sub`. -/
theorem xUserID_header_overwrite_witness :
    clerkJWTMiddleware decodeGood [⟨"k1", "n", "e"⟩] bridgeW "Bearer tok-good" "spoofA" =
      clerkJWTMiddleware decodeGood [⟨"k1", "n", "e"⟩] bridgeW "Bearer tok-good" "spoofB" ∧
    (∃ sub, claimLookup (claimsOf (decodeGood (bearerToken "Bearer tok-good"))) "sub" =
        some sub ∧ sub ≠ "" ∧ bridgeW sub = Except.ok "internal-1") :=
  ⟨(xUserID_header_overwrite decodeGood [⟨"k1", "n", "e"⟩] bridgeW
      "Bearer tok-good" "spoofA" "spoofB").1,
   (xUserID_header_overwrite decodeGood [⟨"k1", "n", "e"⟩] bridgeW
      "Bearer tok-good" "spoofA" "spoofB").2 "internal-1" (by decide)⟩

/-! ### JWKS cache under concurrency (`getPublicKeyFromJWKS`) -/

/-- Phase of one request-handling goroutine inside
`getPublicKeyFromJWKS`, within a single 5-minute window (time is frozen,
so a cache once written stays fresh). -/
inductive FetchPhase where
  | start : FetchPhase
  | fetching : FetchPhase
  | done : FetchPhase
deriving DecidableEq, Repr

/-- Shared state: whether the cached snapshot is fresh, the number of
outbound JWKS fetches so far, and the phase of each goroutine. -/
structure JwksSystem where
  fresh : Bool
  fetches : Nat
  threads : List FetchPhase
deriving DecidableEq, Repr

/-- One atomic step of goroutine `tid`, faithful to the lock discipline
of the source: the read-locked freshness check is one step (after it the
goroutine has RELEASED the read lock); the fetch plus the write-locked
store is collapsed into a second step. The source performs NO re-check
of freshness under the write lock, so a goroutine in phase `fetching`
fetches unconditionally — this models the absent double-checked locking
(collapsing fetch and store into one atomic step is generous to the
code; it only lowers the fetch count). -/
def sysStep (sys : JwksSystem) (tid : Nat) : JwksSystem :=
  match sys.threads.getD tid FetchPhase.done with
  | FetchPhase.start =>
    if sys.fresh then { sys with threads := sys.threads.set tid FetchPhase.done }
    else { sys with threads := sys.threads.set tid FetchPhase.fetching }
  | FetchPhase.fetching =>
    { fresh := true, fetches := sys.fetches + 1,
      threads := sys.threads.set tid FetchPhase.done }
  | FetchPhase.done => sys

/-- Run an interleaving (a list of goroutine ids). -/
def runSchedule (sys : JwksSystem) : List Nat → JwksSystem
  | [] => sys
  | t :: ts => runSchedule (sysStep sys t) ts

/-- `n` goroutines all entering `getPublicKeyFromJWKS` on a stale
cache. -/
def initSystem (n : Nat) : JwksSystem :=
  ⟨false, 0, List.replicate n FetchPhase.start⟩

/-- Number of goroutines that have not finished the call. -/
def pendingCount (l : List FetchPhase) : Nat :=
  l.countP (fun p => p != FetchPhase.done)

/-- C7, counterexample. Three goroutines all pass the read-locked
freshness check before any of them stores, and then each performs its
own fetch: 3 outbound fetches in one 5-minute window, refuting the
claimed bound of 2 under any concurrency (there is no double-checked
re-validation under the exclusive lock in the source). -/
theorem jwks_three_racing_fetches :
    (runSchedule (initSystem 3) [0, 1, 2, 0, 1, 2]).fetches = 3 ∧
    ¬ ((runSchedule (initSystem 3) [0, 1, 2, 0, 1, 2]).fetches ≤ 2) := by
  refine ⟨by decide, by decide⟩

theorem countP_set_le_of (f : FetchPhase → Bool) (l : List FetchPhase)
    (i : Nat) (new : FetchPhase)
    (h : f new = true → f (l.getD i FetchPhase.done) = true) :
    (l.set i new).countP f ≤ l.countP f := by
  induction l generalizing i with
  | nil => simp
  | cons a tl ih =>
    cases i with
    | zero =>
      simp only [List.set, List.countP_cons, List.getD_cons_zero] at h ⊢
      cases hn : f new <;> cases ha : f a <;> simp_all
    | succ j =>
      simp only [List.set, List.countP_cons]
      have := ih j (by simpa using h)
      omega

theorem countP_set_lt (f : FetchPhase → Bool) (l : List FetchPhase)
    (i : Nat) (new : FetchPhase)
    (hold : f (l.getD i FetchPhase.done) = true) (hnew : f new = false)
    (hlen : i < l.length) :
    (l.set i new).countP f + 1 ≤ l.countP f := by
  induction l generalizing i with
  | nil => simp at hlen
  | cons a tl ih =>
    cases i with
    | zero =>
      simp only [List.set, List.countP_cons, List.getD_cons_zero] at hold ⊢
      rw [hold, hnew]
      simp
    | succ j =>
      simp only [List.set, List.countP_cons]
      have := ih j (by simpa using hold) (by simpa using hlen)
      omega

theorem getD_ne_default_lt (l : List FetchPhase) (i : Nat)
    (h : l.getD i FetchPhase.done ≠ FetchPhase.done) : i < l.length := by
  by_contra hc
  exact h (List.getD_eq_default l FetchPhase.done (by omega))

/-- The potential `fetches + pending` never increases. -/
theorem sysStep_potential (sys : JwksSystem) (tid : Nat) :
    (sysStep sys tid).fetches + pendingCount (sysStep sys tid).threads ≤
      sys.fetches + pendingCount sys.threads := by
  cases hp : sys.threads.getD tid FetchPhase.done with
  | start =>
    cases hf : sys.fresh with
    | true =>
      have hstep : sysStep sys tid =
          { sys with threads := sys.threads.set tid FetchPhase.done } := by
        unfold sysStep
        rw [hp]
        dsimp only
        rw [if_pos hf]
      rw [hstep]
      have hle := countP_set_le_of (fun p => p != FetchPhase.done) sys.threads tid
        FetchPhase.done (by simp)
      unfold pendingCount
      dsimp only
      omega
    | false =>
      have hstep : sysStep sys tid =
          { sys with threads := sys.threads.set tid FetchPhase.fetching } := by
        unfold sysStep
        rw [hp]
        dsimp only
        rw [if_neg (by simp [hf])]
      rw [hstep]
      have hle := countP_set_le_of (fun p => p != FetchPhase.done) sys.threads tid
        FetchPhase.fetching (fun _ => by rw [hp]; rfl)
      unfold pendingCount
      dsimp only
      omega
  | fetching =>
    have hstep : sysStep sys tid =
        { fresh := true, fetches := sys.fetches + 1,
          threads := sys.threads.set tid FetchPhase.done } := by
      unfold sysStep
      rw [hp]
    have hlen : tid < sys.threads.length :=
      getD_ne_default_lt sys.threads tid (by rw [hp]; simp)
    have hlt := countP_set_lt (fun p => p != FetchPhase.done) sys.threads tid
      FetchPhase.done (by rw [hp]; rfl) (by simp) hlen
    rw [hstep]
    unfold pendingCount
    dsimp only
    unfold pendingCount at hlt
    omega
  | done =>
    have hstep : sysStep sys tid = sys := by
      unfold sysStep
      rw [hp]
    rw [hstep]

theorem runSchedule_potential (sch : List Nat) (sys : JwksSystem) :
    (runSchedule sys sch).fetches + pendingCount (runSchedule sys sch).threads ≤
      sys.fetches + pendingCount sys.threads := by
  induction sch generalizing sys with
  | nil => simp [runSchedule]
  | cons t ts ih =>
    have h1 := ih (sysStep sys t)
    have h2 := sysStep_potential sys t
    have h3 : runSchedule sys (t :: ts) = runSchedule (sysStep sys t) ts := rfl
    rw [h3]
    omega

/-- Single-threaded model of a sequence of `getPublicKeyFromJWKS` calls
within one 5-minute window: state is (cache fresh?, fetches so far); a
call on a fresh cache fetches nothing, a call on a stale cache fetches
once and leaves the cache fresh. -/
def seqCall (c : Bool × Nat) : Bool × Nat :=
  if c.1 then c else (true, c.2 + 1)

/-- `m` sequential calls. -/
def seqCalls : Nat → (Bool × Nat) → Bool × Nat
  | 0, c => c
  | m + 1, c => seqCalls m (seqCall c)

theorem seqCalls_fresh (m : Nat) (k : Nat) :
    seqCalls m (true, k) = (true, k) := by
  induction m with
  | zero => rfl
  | succ j ih => simpa [seqCalls, seqCall] using ih

/-- C7, amended. Without the double-checked re-validation, the number of
outbound JWKS fetches is bounded only by the number of goroutines that
raced through the stale check — every racing miss may fetch (the bound 2
fails, see the counterexample) — while any purely sequential run of
calls within one 5-minute window performs at most one fetch, and none at
all once the cache is fresh. -/
theorem jwks_fetch_bounds :
    (∀ n sch, (runSchedule (initSystem n) sch).fetches ≤ n) ∧
    (∀ m k, (seqCalls m (false, k)).2 ≤ k + 1) ∧
    (∀ m k, (seqCalls m (true, k)).2 = k) := by
  refine ⟨?_, ?_, ?_⟩
  · intro n sch
    have h := runSchedule_potential sch (initSystem n)
    have h2 : pendingCount (initSystem n).threads ≤ n := by
      unfold pendingCount initSystem
      dsimp only
      calc (List.replicate n FetchPhase.start).countP (fun p => p != FetchPhase.done)
        ≤ (List.replicate n FetchPhase.start).length := List.countP_le_length _
      _ = n := by simp
    have h3 : (initSystem n).fetches = 0 := rfl
    omega
  · intro m k
    cases m with
    | zero => simp [seqCalls]
    | succ j =>
      have hstep : seqCalls (j + 1) (false, k) = seqCalls j (true, k + 1) := by
        simp [seqCalls, seqCall]
      rw [hstep, seqCalls_fresh]
  · intro m k
    rw [seqCalls_fresh]
